import Mathlib

/-!
Shallow embedding of the phoneflip2 marketplace client's core state logic
(src/frontend/src/App.js and the unnamed App variant holding the search
suggestion engine). React state variables become fields of `AppState`;
asynchronous HTTP calls are modelled by passing the fetch outcome as an
`Except` argument and recording each issued request in a `requests` log.
-/

/-- A toast notification, as produced by `showToast(message, type)`. -/
structure Toast where
  message : String
  ttype : String
deriving DecidableEq

/-- A listing record, shaped as in the spec's data model and the sample
listings in the source. -/
structure Listing where
  id : Nat
  title : String
  brand : String
  condition : String
  price : Nat
  negotiable : Bool
  city : String
  images : List String
  postedDate : String
deriving DecidableEq

/-- The current user, from the `/auth/me` or login responses. -/
structure User where
  id : Nat
  name : String
  email : String
deriving DecidableEq

/-- A favorite entry; membership is checked by listing id. -/
structure Favorite where
  id : Nat
deriving DecidableEq

/-- A conversation, as used by the messaging functions. -/
structure Conversation where
  id : Nat
deriving DecidableEq

/-- A message in a conversation. -/
structure Message where
  id : Nat
  content : String
deriving DecidableEq

/-- A review record. -/
structure Review where
  id : Nat
  rating : Nat
deriving DecidableEq

/-- The filter state, mirroring the `filters` useState object:
`{brand, city, condition, search, minPrice, maxPrice, sortBy}` (all strings,
empty string meaning unset, matching JS falsiness for these values). -/
structure Filters where
  brand : String
  city : String
  condition : String
  search : String
  minPrice : String
  maxPrice : String
  sortBy : String
deriving DecidableEq

/-- The `searchFilters` argument of `loadListings`: a partial object spread
over `filters`. A `some ""` field is present-but-empty (falsy in JS), `none`
is absent. -/
structure FilterOverride where
  brand : Option String := none
  city : Option String := none
  condition : Option String := none
  search : Option String := none
  minPrice : Option String := none
  maxPrice : Option String := none
  sortBy : Option String := none
deriving DecidableEq

/-- The empty `searchFilters` object `{}`. -/
def emptyOverride : FilterOverride := {}

/-- The HTTP requests the modelled operations can issue, with the data each
request carries. -/
inductive ApiCall where
  | getListings (params : List (String × String))
  | getAuthMe
  | postLogin
  | getFavorites
  | deleteFavorite (listingId : Nat)
  | postFavorite (listingId : Nat)
  | getConversations
  | getMessages (conversationId : Nat)
  | postMessage (receiverId listingId : Nat) (content messageType : String)
      (offerAmount : Option Nat)
  | postReview (reviewedUserId listingId rating : Nat) (comment : String)
  | getUserReviews (userId : Nat)
deriving DecidableEq

/-- The application state: the `useState` variables of the `App` component
that the modelled operations read or write, together with the durable
browser storage slot `localToken` (`localStorage.getItem('token')`) and the
log `requests` of HTTP calls issued so far. -/
structure AppState where
  currentPage : String
  user : Option User
  token : Option String
  localToken : Option String
  listings : List Listing
  filters : Filters
  favorites : List Favorite
  conversations : List Conversation
  messages : List Message
  selectedConversation : Option Conversation
  reviews : List Review
  toast : Option Toast
  loading : Bool
  page : Nat
  hasMoreListings : Bool
  requests : List ApiCall
deriving DecidableEq

/-- JS `a || b` on an optional string `a` and string `b`: the override value
when present and truthy (non-empty), otherwise the fallback. -/
def jsOrStr (a : Option String) (b : String) : String :=
  match a with
  | some s => if s = "" then b else s
  | none => b

/-- The merged object `{...filters, ...searchFilters}`: each override field,
when present, replaces the stored filter field (even with an empty value). -/
def mergeFilters (f : Filters) (o : FilterOverride) : Filters where
  brand := o.brand.getD f.brand
  city := o.city.getD f.city
  condition := o.condition.getD f.condition
  search := o.search.getD f.search
  minPrice := o.minPrice.getD f.minPrice
  maxPrice := o.maxPrice.getD f.maxPrice
  sortBy := o.sortBy.getD f.sortBy

/-- `Object.entries` of the merged filters object, in JS insertion order
(the declaration order of the `filters` useState initialiser). -/
def filterEntries (m : Filters) : List (String × String) :=
  [("brand", m.brand), ("city", m.city), ("condition", m.condition),
   ("search", m.search), ("minPrice", m.minPrice), ("maxPrice", m.maxPrice),
   ("sortBy", m.sortBy)]

/-- Whether `needle` is a prefix of `hay`, character by character. -/
def charsStartWith : List Char → List Char → Bool
  | _, [] => true
  | [], _ :: _ => false
  | a :: as, b :: bs => a == b && charsStartWith as bs

/-- Replace the first occurrence of `needle` in `hay` by `repl`
(JS `String.prototype.replace` with a string pattern). -/
def replaceFirstChars (needle repl : List Char) : List Char → List Char
  | [] => if needle.isEmpty then repl else []
  | h :: t =>
    if charsStartWith (h :: t) needle then repl ++ (h :: t).drop needle.length
    else h :: replaceFirstChars needle repl t

/-- JS `s.replace(pat, repl)` on strings. -/
def jsReplaceFirst (s pat repl : String) : String :=
  ⟨replaceFirstChars pat.toList repl.toList s.toList⟩

/-- The body of the `forEach` in `loadListings`: a truthy value whose key is
not `search` is appended, with `minPrice`/`maxPrice` renamed via
`key.replace('Price', '_price')` and `sortBy` renamed to `sort_by`. -/
def entryParams (kv : String × String) : List (String × String) :=
  if kv.2 ≠ "" ∧ kv.1 ≠ "search" then
    if kv.1 = "minPrice" ∨ kv.1 = "maxPrice" then
      [(jsReplaceFirst kv.1 "Price" "_price", kv.2)]
    else
      [(if kv.1 = "sortBy" then "sort_by" else kv.1, kv.2)]
  else []

/-- The `URLSearchParams` built by `loadListings` from the stored filters,
the `searchFilters` override, and the requested page number, in append
order: filter entries, then `search`, then `page` and `limit`. -/
def buildParams (f : Filters) (o : FilterOverride) (pageNum : Nat) :
    List (String × String) :=
  let base := (filterEntries (mergeFilters f o)).foldr
    (fun kv acc => entryParams kv ++ acc) []
  let searchVal := jsOrStr o.search f.search
  let withSearch := base ++ (if searchVal ≠ "" then [("search", searchVal)] else [])
  withSearch ++ [("page", toString pageNum), ("limit", "20")]

/-- `loadListings(searchFilters, pageNum, append)` with the outcome of the
`GET /listings` call passed in as `fetch`. On success the response either
replaces or is appended to the result buffer, `hasMoreListings` is set iff
exactly 20 items came back, and `page` is set to the requested page. On
failure an error toast is raised and the buffer is cleared. `loading` is
set on entry and cleared in the `finally` block in every case. -/
def loadListings (s : AppState) (searchFilters : FilterOverride)
    (pageNum : Nat) (append : Bool) (fetch : Except Unit (List Listing)) :
    AppState :=
  let s1 := { s with loading := true }
  let params := buildParams s1.filters searchFilters pageNum
  let s2 := { s1 with requests := s1.requests ++ [ApiCall.getListings params] }
  match fetch with
  | .ok data =>
      let s3 := { s2 with
        listings := if append then s2.listings ++ data else data,
        hasMoreListings := data.length == 20,
        page := pageNum }
      { s3 with loading := false }
  | .error _ =>
      let s3 := { s2 with
        toast := some ⟨"Error loading listings", "error"⟩,
        listings := [] }
      { s3 with loading := false }

/-- `loadMoreListings`: guarded by `hasMoreListings && !loading`, requesting
page `page + 1` with `append = true`. -/
def loadMoreListings (s : AppState) (fetch : Except Unit (List Listing)) :
    AppState :=
  if s.hasMoreListings && !s.loading then
    loadListings s emptyOverride (s.page + 1) true fetch
  else s

/-- The filter fields, for modelling a single-field `setFilters` update. -/
inductive FilterField where
  | brand | city | condition | search | minPrice | maxPrice | sortBy
deriving DecidableEq

/-- Update one field of the filter state, as `setFilters({...filters, field: v})`. -/
def Filters.setField (f : Filters) : FilterField → String → Filters
  | .brand, v => { f with brand := v }
  | .city, v => { f with city := v }
  | .condition, v => { f with condition := v }
  | .search, v => { f with search := v }
  | .minPrice, v => { f with minPrice := v }
  | .maxPrice, v => { f with maxPrice := v }
  | .sortBy, v => { f with sortBy := v }

/-- Read one field of the filter state. -/
def Filters.getField (f : Filters) : FilterField → String
  | .brand => f.brand
  | .city => f.city
  | .condition => f.condition
  | .search => f.search
  | .minPrice => f.minPrice
  | .maxPrice => f.maxPrice
  | .sortBy => f.sortBy

/-- The dependency array of the listings effect:
`[filters.brand, filters.city, filters.condition, filters.sortBy]`. -/
def watchedDeps (f : Filters) : String × String × String × String :=
  (f.brand, f.city, f.condition, f.sortBy)

/-- Whether a filter field is in the listings effect's dependency array. -/
def FilterField.watched : FilterField → Bool
  | .brand | .city | .condition | .sortBy => true
  | .search | .minPrice | .maxPrice => false

/-- A single-field filter change event: the filter state is updated, and the
`useEffect` watching `[filters.brand, filters.city, filters.condition,
filters.sortBy]` re-runs `loadListings()` (defaults: `{}`, page 1, no
append) exactly when one of those dependencies changed. -/
def setFilterField (s : AppState) (fld : FilterField) (v : String)
    (fetch : Except Unit (List Listing)) : AppState :=
  let s1 := { s with filters := s.filters.setField fld v }
  if watchedDeps s.filters = watchedDeps s1.filters then s1
  else loadListings s1 emptyOverride 1 false fetch

/-- `loadCurrentUser`: issues `GET /auth/me`; on success the user is set
from the response; on failure the token is cleared from state and from
durable storage (the catch block does not touch the `user` state). -/
def loadCurrentUser (s : AppState) (fetch : Except Unit User) : AppState :=
  let s1 := { s with requests := s.requests ++ [ApiCall.getAuthMe] }
  match fetch with
  | .ok u => { s1 with user := some u }
  | .error _ => { s1 with token := none, localToken := none }

/-- The `useEffect` on `[token]`: when a token is present, the auth header
is installed and `loadCurrentUser()` runs; otherwise only the header is
removed (no state change in the model). -/
def tokenEffect (s : AppState) (fetch : Except Unit User) : AppState :=
  match s.token with
  | some _ => loadCurrentUser s fetch
  | none => s

/-- The login response payload `{access_token, user}`. -/
structure LoginResponse where
  access_token : String
  user : User
deriving DecidableEq

/-- `handleLogin(loginData)` with the outcome of `POST /auth/login` passed
in: an error carries the optional server `detail` text
(`error.response?.data?.detail`). On success the token is stored in state
and in `localStorage`, the user is set, a success toast shows, and the view
becomes `home`; on failure a toast shows the detail or the generic
fallback. `loading` is cleared in the `finally` block either way. -/
def handleLogin (s : AppState)
    (result : Except (Option String) LoginResponse) : AppState :=
  let s1 := { s with loading := true,
                     requests := s.requests ++ [ApiCall.postLogin] }
  match result with
  | .ok r =>
      let s2 := { s1 with
        token := some r.access_token,
        user := some r.user,
        localToken := some r.access_token,
        toast := some ⟨"Login successful!", "success"⟩,
        currentPage := "home" }
      { s2 with loading := false }
  | .error detail =>
      let s2 := { s1 with
        toast := some ⟨detail.getD "Login failed", "error"⟩ }
      { s2 with loading := false }

/-- `loadFavorites`: refreshes the favorites list from the server; errors
are only logged to the console. -/
def loadFavorites (s : AppState) (fetch : Except Unit (List Favorite)) :
    AppState :=
  let s1 := { s with requests := s.requests ++ [ApiCall.getFavorites] }
  match fetch with
  | .ok favs => { s1 with favorites := favs }
  | .error _ => s1

/-- `loadConversations`: refreshes the conversation list; errors are only
logged. -/
def loadConversations (s : AppState)
    (fetch : Except Unit (List Conversation)) : AppState :=
  let s1 := { s with requests := s.requests ++ [ApiCall.getConversations] }
  match fetch with
  | .ok convs => { s1 with conversations := convs }
  | .error _ => s1

/-- `loadMessages(conversationId)`: refreshes the open conversation's
message list; errors are only logged. -/
def loadMessages (s : AppState) (conversationId : Nat)
    (fetch : Except Unit (List Message)) : AppState :=
  let s1 := { s with
    requests := s.requests ++ [ApiCall.getMessages conversationId] }
  match fetch with
  | .ok msgs => { s1 with messages := msgs }
  | .error _ => s1

/-- `loadUserReviews(userId)`: refreshes the reviews list; errors are only
logged. -/
def loadUserReviews (s : AppState) (userId : Nat)
    (fetch : Except Unit (List Review)) : AppState :=
  let s1 := { s with
    requests := s.requests ++ [ApiCall.getUserReviews userId] }
  match fetch with
  | .ok rs => { s1 with reviews := rs }
  | .error _ => s1

/-- `toggleFavorite(listingId)`: without a user, an error toast and an
early return before any request. Otherwise membership is scanned by id,
the matching delete/create call is issued, a toast shows, and the
favorites list is refreshed; a failed call yields an error toast. -/
def toggleFavorite (s : AppState) (listingId : Nat)
    (callRes : Except Unit Unit) (favRes : Except Unit (List Favorite)) :
    AppState :=
  if s.user = none then
    { s with toast := some ⟨"Please login to add favorites", "error"⟩ }
  else
    let isFavorited := s.favorites.any (fun fav => fav.id == listingId)
    let s1 := { s with requests := s.requests ++
      [if isFavorited then ApiCall.deleteFavorite listingId
       else ApiCall.postFavorite listingId] }
    match callRes with
    | .ok _ =>
        let t : Toast :=
          if isFavorited then ⟨"Removed from favorites", "info"⟩
          else ⟨"Added to favorites", "success"⟩
        let s2 := { s1 with toast := some t }
        loadFavorites s2 favRes
    | .error _ =>
        { s1 with toast := some ⟨"Error updating favorites", "error"⟩ }

/-- `sendMessage(receiverId, listingId, content, messageType, offerAmount)`:
without a user, an error toast and an early return before any request.
Otherwise `POST /messages` is issued; on success the open conversation's
messages (if one is selected) and the conversation list are refreshed; on
failure an error toast shows. -/
def sendMessage (s : AppState) (receiverId listingId : Nat)
    (content messageType : String) (offerAmount : Option Nat)
    (postRes : Except Unit Unit) (msgsRes : Except Unit (List Message))
    (convsRes : Except Unit (List Conversation)) : AppState :=
  if s.user = none then
    { s with toast := some ⟨"Please login to send messages", "error"⟩ }
  else
    let s1 := { s with requests := s.requests ++
      [ApiCall.postMessage receiverId listingId content messageType offerAmount] }
    match postRes with
    | .ok _ =>
        let s2 := match s.selectedConversation with
          | some conv => loadMessages s1 conv.id msgsRes
          | none => s1
        loadConversations s2 convsRes
    | .error _ =>
        { s1 with toast := some ⟨"Error sending message", "error"⟩ }

/-- `submitReview(reviewedUserId, listingId, rating, comment)`: without a
user, an error toast and an early return before any request. Otherwise
`POST /reviews` is issued; on success a toast shows and the reviewed
user's reviews are refreshed; on failure a toast shows the server detail
or a generic fallback. -/
def submitReview (s : AppState) (reviewedUserId listingId rating : Nat)
    (comment : String) (postRes : Except (Option String) Unit)
    (reviewsRes : Except Unit (List Review)) : AppState :=
  if s.user = none then
    { s with toast := some ⟨"Please login to submit reviews", "error"⟩ }
  else
    let s1 := { s with requests := s.requests ++
      [ApiCall.postReview reviewedUserId listingId rating comment] }
    match postRes with
    | .ok _ =>
        let s2 := { s1 with
          toast := some ⟨"Review submitted successfully", "success"⟩ }
        loadUserReviews s2 reviewedUserId reviewsRes
    | .error detail =>
        let t : Toast := ⟨detail.getD "Error submitting review", "error"⟩
        { s1 with toast := some t }

/-- The fixed catalog of popular phone models used for suggestions. -/
def phoneModels : List String :=
  ["iPhone 15 Pro Max", "iPhone 15 Pro", "iPhone 15", "iPhone 14 Pro Max",
   "iPhone 14 Pro", "iPhone 14", "iPhone 13 Pro Max", "iPhone 13 Pro",
   "iPhone 13",
   "Samsung Galaxy S24 Ultra", "Samsung Galaxy S24+", "Samsung Galaxy S24",
   "Samsung Galaxy S23 Ultra", "Samsung Galaxy S23+", "Samsung Galaxy S23",
   "Samsung Galaxy Note 20 Ultra", "Samsung Galaxy A54", "Samsung Galaxy A34",
   "Samsung Galaxy A14",
   "Google Pixel 8 Pro", "Google Pixel 8", "Google Pixel 7 Pro",
   "Google Pixel 7", "Google Pixel 6 Pro",
   "OnePlus 12", "OnePlus 11", "OnePlus 10 Pro", "OnePlus Nord 3",
   "OnePlus Nord CE 3",
   "Xiaomi 14 Pro", "Xiaomi 14", "Xiaomi 13 Pro", "Xiaomi Redmi Note 13 Pro",
   "Xiaomi Redmi Note 13", "Xiaomi Redmi Note 12 Pro",
   "Nothing Phone (2)", "Nothing Phone (1)", "Realme GT 6", "Realme 12 Pro+",
   "Vivo V30 Pro", "Vivo V30", "Oppo Reno 11 Pro", "Oppo Reno 11"]

/-- Whether `needle` occurs as a contiguous run inside `hay`
(JS `String.prototype.includes`). -/
def charsContain (hay needle : List Char) : Bool :=
  match hay with
  | [] => needle.isEmpty
  | _ :: t => charsStartWith hay needle || charsContain t needle

/-- JS `model.toLowerCase().includes(value.toLowerCase())`: case-insensitive
substring containment (the catalog and inputs are ASCII). -/
def lcIncludes (model value : String) : Bool :=
  charsContain (model.toList.map Char.toLower) (value.toList.map Char.toLower)

/-- The search-UI state of the App variant holding the suggestion engine:
`searchQuery`, `searchSuggestions`, `showSuggestions`, plus its `filters`. -/
structure SearchUIState where
  searchQuery : String
  searchSuggestions : List String
  showSuggestions : Bool
  filters : Filters
deriving DecidableEq

/-- `handleSearchInput(value)`: stores the query in `searchQuery` and
`filters.search`; for a non-empty value, filters the catalog
case-insensitively, keeps the first 6 matches and shows them; for an empty
value, only hides the suggestion list. -/
def handleSearchInput (s : SearchUIState) (value : String) : SearchUIState :=
  let s1 := { s with searchQuery := value,
                     filters := { s.filters with search := value } }
  if value.length > 0 then
    let suggestions := (phoneModels.filter (fun m => lcIncludes m value)).take 6
    { s1 with searchSuggestions := suggestions, showSuggestions := true }
  else
    { s1 with showSuggestions := false }

/-- An optional query parameter: present with the given name exactly when
the value is non-empty. Spec-side vocabulary for the request contract. -/
def optQueryParam (name value : String) : List (String × String) :=
  if value = "" then [] else [(name, value)]

/-- The listings request as the specification describes it: each non-empty
merged filter field among brand, city and condition under its own name,
`minPrice`/`maxPrice` as `min_price`/`max_price`, `sortBy` as `sort_by`, a
`search` parameter equal to the override's search when present and
non-empty and otherwise the stored filter's search (omitted when that is
empty), and pagination parameters `page` and `limit = 20`. -/
def specListingParams (f : Filters) (o : FilterOverride) (pageNum : Nat) :
    List (String × String) :=
  let m := mergeFilters f o
  optQueryParam "brand" m.brand ++ optQueryParam "city" m.city ++
  optQueryParam "condition" m.condition ++
  optQueryParam "min_price" m.minPrice ++
  optQueryParam "max_price" m.maxPrice ++ optQueryParam "sort_by" m.sortBy ++
  optQueryParam "search" (jsOrStr o.search f.search) ++
  [("page", toString pageNum), ("limit", "20")]

/-- Filters in their initial state: all fields empty except the default
sort order `recent`. -/
def blankFilters : Filters := ⟨"", "", "", "", "", "", "recent"⟩

/-- An application state as after mount with no session: anonymous user,
initial filters, empty buffers, no request issued yet. -/
def baseState : AppState :=
  { currentPage := "home", user := none, token := none, localToken := none,
    listings := [], filters := blankFilters, favorites := [], conversations := [],
    messages := [], selectedConversation := none, reviews := [], toast := none,
    loading := false, page := 1, hasMoreListings := true, requests := [] }

/-- A concrete logged-in user for counterexamples and witnesses. -/
def cUser : User := ⟨1, "Ali", "ali@example.com"⟩

/-- A state with a logged-in user holding a bearer token. -/
def s4c : AppState :=
  { baseState with user := some cUser, token := some "tok", localToken := some "tok" }

/-- A concrete listing for witnesses. -/
def sampleListing : Listing :=
  ⟨1, "iPhone 13 128GB", "Apple", "Good", 145000, true, "Lahore", [], "2 days ago"⟩

/-- A state mid-browse: on page 2 with one listing loaded, idle, with more
pages advertised. -/
def s9c : AppState := { baseState with page := 2, listings := [sampleListing] }

/-- A search-UI state with a stale suggestion list still showing. -/
def s6c : SearchUIState := ⟨"", ["Vivo V30"], true, blankFilters⟩

/-- First-occurrence replace sends the key minPrice to min_price. -/
theorem jsReplaceFirst_minPrice :
    jsReplaceFirst "minPrice" "Price" "_price" = "min_price" := rfl

/-- First-occurrence replace sends the key maxPrice to max_price. -/
theorem jsReplaceFirst_maxPrice :
    jsReplaceFirst "maxPrice" "Price" "_price" = "max_price" := rfl

/-- C1 (amended): changing a filter field that the listings effect watches
(brand, city, condition, sortBy) to a new value triggers a fetch with page
1 and no append, so the buffer is replaced and the stored page becomes 1;
changing an unwatched field (search, minPrice, maxPrice) triggers no fetch
and leaves all other state, pagination included, unchanged. -/
theorem filterChange_pagination_reset (s : AppState) (fld : FilterField)
    (v : String) (data : List Listing) :
    (fld.watched = true → s.filters.getField fld ≠ v →
      (setFilterField s fld v (.ok data)).page = 1 ∧
      (setFilterField s fld v (.ok data)).listings = data ∧
      (setFilterField s fld v (.ok data)).requests = s.requests ++
        [ApiCall.getListings (buildParams (s.filters.setField fld v) emptyOverride 1)]) ∧
    (fld.watched = false →
      setFilterField s fld v (.ok data) =
        { s with filters := s.filters.setField fld v }) := by
  constructor
  · intro hw hne
    cases fld <;> simp_all [FilterField.watched, setFilterField, Filters.setField,
      Filters.getField, watchedDeps, loadListings, Prod.ext_iff]
  · intro hw
    cases fld <;> simp_all [FilterField.watched, setFilterField, Filters.setField,
      watchedDeps]

/-- C1 (counterexample): changing the search filter field does not reset
pagination — from a state on page 3, setting `filters.search` issues no
listings fetch at all and the stored page stays 3, not 1. -/
theorem filterChange_search_leaves_page :
    ({ baseState with page := 3 }).filters.search ≠ "iphone" ∧
    (setFilterField { baseState with page := 3 } .search "iphone" (.ok [])).page = 3 ∧
    (setFilterField { baseState with page := 3 } .search "iphone" (.ok [])).requests = [] :=
  ⟨by decide, rfl, rfl⟩

/-- C1 (witness): a brand change from the initial state fetches page 1 and
replaces the buffer; a minPrice change only updates the filter state. -/
theorem filterChange_pagination_reset_witness :
    FilterField.brand.watched = true ∧
    baseState.filters.getField .brand ≠ "Apple" ∧
    (setFilterField baseState .brand "Apple" (.ok [sampleListing])).page = 1 ∧
    (setFilterField baseState .brand "Apple" (.ok [sampleListing])).listings =
      [sampleListing] ∧
    FilterField.minPrice.watched = false ∧
    setFilterField baseState .minPrice "100" (.ok []) =
      { baseState with filters := baseState.filters.setField .minPrice "100" } := by
  refine ⟨rfl, by decide, ?_, ?_, rfl, ?_⟩
  · exact ((filterChange_pagination_reset baseState .brand "Apple"
      [sampleListing]).1 rfl (by decide)).1
  · exact ((filterChange_pagination_reset baseState .brand "Apple"
      [sampleListing]).1 rfl (by decide)).2.1
  · exact (filterChange_pagination_reset baseState .minPrice "100" []).2 rfl

/-- C2: after a successful listings fetch, `hasMoreListings` holds iff the
response held exactly 20 items; any response length, 21 included, is
processed totally, replacing or appending the buffer and storing the
requested page. -/
theorem hasMoreListings_iff_full_page (s : AppState) (o : FilterOverride)
    (pn : Nat) (ap : Bool) (data : List Listing) :
    ((loadListings s o pn ap (.ok data)).hasMoreListings = true ↔ data.length = 20) ∧
    (loadListings s o pn ap (.ok data)).listings =
      (if ap then s.listings ++ data else data) ∧
    (loadListings s o pn ap (.ok data)).page = pn := by
  simp [loadListings]

/-- C3: the request built by `loadListings` carries exactly the non-empty
merged filter fields (brand, city, condition as themselves, minPrice,
maxPrice, sortBy renamed to min_price, max_price, sort_by), the search
text from the override or else the stored filter (omitted when both are
empty), and `page` and `limit = 20`. -/
theorem listings_request_contract (f : Filters) (o : FilterOverride) (pn : Nat) :
    buildParams f o pn = specListingParams f o pn := by
  simp [buildParams, specListingParams, filterEntries, entryParams, optQueryParam,
    jsReplaceFirst_minPrice, jsReplaceFirst_maxPrice]

/-- C4 (amended): a present bearer token always drives a `GET /auth/me`
attempt; when that attempt fails, the token is cleared from state and from
durable storage, while the user state is left exactly as it was (so the
session stays anonymous only if no user had been loaded); when it
succeeds, the user is set from the response. -/
theorem tokenEffect_session_validation (s : AppState) (t : String)
    (fetch : Except Unit User) (h : s.token = some t) :
    (tokenEffect s fetch).requests = s.requests ++ [ApiCall.getAuthMe] ∧
    ((tokenEffect s (.error ())).token = none ∧
     (tokenEffect s (.error ())).localToken = none ∧
     (tokenEffect s (.error ())).user = s.user) ∧
    (∀ u, (tokenEffect s (.ok u)).user = some u) := by
  refine ⟨?_, ⟨?_, ?_, ?_⟩, fun u => ?_⟩
  · simp only [tokenEffect, h, loadCurrentUser]
    cases fetch <;> rfl
  · simp [tokenEffect, h, loadCurrentUser]
  · simp [tokenEffect, h, loadCurrentUser]
  · simp [tokenEffect, h, loadCurrentUser]
  · simp [tokenEffect, h, loadCurrentUser]

/-- C4 (counterexample): from a state with a loaded user and a token, a
failing current-user fetch clears the token yet leaves the user set — the
user state does not revert to anonymous as the claim asserts. -/
theorem tokenEffect_failure_keeps_user :
    s4c.token = some "tok" ∧
    (tokenEffect s4c (.error ())).token = none ∧
    (tokenEffect s4c (.error ())).localToken = none ∧
    (tokenEffect s4c (.error ())).user ≠ none :=
  ⟨rfl, rfl, rfl, by decide⟩

/-- C4 (witness): on the concrete logged-in state, the failing fetch is
attempted and clears both token slots while keeping the stored user. -/
theorem tokenEffect_session_validation_witness :
    s4c.token = some "tok" ∧
    (tokenEffect s4c (.error ())).requests = s4c.requests ++ [ApiCall.getAuthMe] ∧
    (tokenEffect s4c (.error ())).token = none ∧
    (tokenEffect s4c (.error ())).user = s4c.user := by
  refine ⟨rfl, ?_, ?_, ?_⟩
  · exact (tokenEffect_session_validation s4c "tok" (.error ()) rfl).1
  · exact (tokenEffect_session_validation s4c "tok" (.error ()) rfl).2.1.1
  · exact (tokenEffect_session_validation s4c "tok" (.error ()) rfl).2.1.2.2

/-- C5: a failed listings fetch empties the result buffer and raises the
error toast, and the loading flag ends false for every fetch outcome. -/
theorem loadListings_failure_handling (s : AppState) (o : FilterOverride)
    (pn : Nat) (ap : Bool) :
    (loadListings s o pn ap (.error ())).listings = [] ∧
    (loadListings s o pn ap (.error ())).toast =
      some ⟨"Error loading listings", "error"⟩ ∧
    ∀ fetch, (loadListings s o pn ap fetch).loading = false := by
  refine ⟨rfl, rfl, fun fetch => ?_⟩
  cases fetch <;> rfl

/-- C6: for a non-empty input the computed suggestion list is exactly the
first at-most-6 catalog entries containing the input case-insensitively,
in catalog order, and the list is shown; for the empty input the list is
hidden whatever the prior state. -/
theorem searchSuggestions_contract (s : SearchUIState) (value : String) :
    (value ≠ "" →
      (handleSearchInput s value).searchSuggestions =
        (phoneModels.filter (fun m => lcIncludes m value)).take 6 ∧
      (handleSearchInput s value).showSuggestions = true ∧
      (handleSearchInput s value).searchSuggestions.length ≤ 6 ∧
      ∀ m ∈ (handleSearchInput s value).searchSuggestions,
        m ∈ phoneModels ∧ lcIncludes m value = true) ∧
    (value = "" → (handleSearchInput s value).showSuggestions = false) := by
  constructor
  · intro h
    have hl : 0 < value.length := by
      cases value with
      | mk data =>
        cases data with
        | nil => exact absurd rfl h
        | cons c cs => simp [String.length]
    refine ⟨?_, ?_, ?_, ?_⟩
    · simp [handleSearchInput, hl]
    · simp [handleSearchInput, hl]
    · simp only [handleSearchInput, hl, if_pos]
      simp [List.length_take]
    · intro m hm
      simp only [handleSearchInput, hl, if_pos] at hm
      have hm2 : m ∈ phoneModels.filter (fun m => lcIncludes m value) :=
        List.mem_of_mem_take hm
      exact ⟨(List.mem_filter.mp hm2).1, (List.mem_filter.mp hm2).2⟩
  · intro h
    subst h
    simp [handleSearchInput]

/-- C6 (witness): on input iph from a state with a stale visible list, the
suggestions are the first six iPhone catalog entries and are shown; on the
empty input the list is hidden. -/
theorem searchSuggestions_contract_witness :
    ("iph" ≠ "" ∧
     (handleSearchInput s6c "iph").searchSuggestions =
       ["iPhone 15 Pro Max", "iPhone 15 Pro", "iPhone 15", "iPhone 14 Pro Max",
        "iPhone 14 Pro", "iPhone 14"] ∧
     (handleSearchInput s6c "iph").showSuggestions = true) ∧
    ((handleSearchInput s6c "").showSuggestions = false) := by
  refine ⟨⟨by decide, ?_, ?_⟩, ?_⟩
  · exact (((searchSuggestions_contract s6c "iph").1 (by decide)).1).trans (by decide)
  · exact ((searchSuggestions_contract s6c "iph").1 (by decide)).2.1
  · exact (searchSuggestions_contract s6c "").2 rfl

/-- C7: with no authenticated user, toggling a favorite, sending a message
and submitting a review each only raise the login toast: the request log
is untouched (zero network calls) and every other state field keeps its
value. -/
theorem unauthenticated_actions_guarded (s : AppState)
    (listingId receiverId ruId rating : Nat) (content mt comment : String)
    (offer : Option Nat) (cr : Except Unit Unit)
    (fr : Except Unit (List Favorite)) (pr : Except Unit Unit)
    (mr : Except Unit (List Message)) (cvr : Except Unit (List Conversation))
    (rr : Except (Option String) Unit) (rvr : Except Unit (List Review))
    (h : s.user = none) :
    toggleFavorite s listingId cr fr =
      { s with toast := some ⟨"Please login to add favorites", "error"⟩ } ∧
    sendMessage s receiverId listingId content mt offer pr mr cvr =
      { s with toast := some ⟨"Please login to send messages", "error"⟩ } ∧
    submitReview s ruId listingId rating comment rr rvr =
      { s with toast := some ⟨"Please login to submit reviews", "error"⟩ } ∧
    (toggleFavorite s listingId cr fr).requests = s.requests ∧
    (sendMessage s receiverId listingId content mt offer pr mr cvr).requests =
      s.requests ∧
    (submitReview s ruId listingId rating comment rr rvr).requests = s.requests := by
  simp [toggleFavorite, sendMessage, submitReview, h]

/-- C7 (witness): on the anonymous base state, each of the three guarded
actions only sets its login toast and issues no request. -/
theorem unauthenticated_actions_guarded_witness :
    baseState.user = none ∧
    toggleFavorite baseState 5 (.ok ()) (.ok []) =
      { baseState with toast := some ⟨"Please login to add favorites", "error"⟩ } ∧
    (sendMessage baseState 1 2 "hi" "text" none (.ok ()) (.ok []) (.ok [])).requests =
      baseState.requests ∧
    (submitReview baseState 1 2 5 "good" (.ok ()) (.ok [])).requests =
      baseState.requests := by
  refine ⟨rfl, ?_, ?_, ?_⟩
  · exact (unauthenticated_actions_guarded baseState 5 1 1 5 "hi" "text" "good"
      none (.ok ()) (.ok []) (.ok ()) (.ok []) (.ok []) (.ok ()) (.ok []) rfl).1
  · exact (unauthenticated_actions_guarded baseState 5 1 1 5 "hi" "text" "good"
      none (.ok ()) (.ok []) (.ok ()) (.ok []) (.ok []) (.ok ()) (.ok []) rfl).2.2.2.2.1
  · exact (unauthenticated_actions_guarded baseState 5 1 1 5 "hi" "text" "good"
      none (.ok ()) (.ok []) (.ok ()) (.ok []) (.ok []) (.ok ()) (.ok []) rfl).2.2.2.2.2

/-- C8: a successful login stores the token in state and durable storage,
sets the user from the response and routes to home; a failed login raises
a toast with the server detail or the generic fallback and leaves the
view, the token and durable storage unchanged. -/
theorem handleLogin_outcomes (s : AppState) (r : LoginResponse) (e : Option String) :
    ((handleLogin s (.ok r)).token = some r.access_token ∧
     (handleLogin s (.ok r)).localToken = some r.access_token ∧
     (handleLogin s (.ok r)).user = some r.user ∧
     (handleLogin s (.ok r)).currentPage = "home") ∧
    ((handleLogin s (.error e)).toast = some ⟨e.getD "Login failed", "error"⟩ ∧
     (handleLogin s (.error e)).currentPage = s.currentPage ∧
     (handleLogin s (.error e)).token = s.token ∧
     (handleLogin s (.error e)).localToken = s.localToken) :=
  ⟨⟨rfl, rfl, rfl, rfl⟩, ⟨rfl, rfl, rfl, rfl⟩⟩

/-- C9: load-more is a no-op while loading or when no more pages are
advertised; when it fires it requests page `page + 1` with append, so the
new items extend the buffer; in every case the filter state is untouched. -/
theorem loadMoreListings_guard_and_frame (s : AppState)
    (fetch : Except Unit (List Listing)) (data : List Listing) :
    (s.loading = true → loadMoreListings s fetch = s) ∧
    (s.hasMoreListings = false → loadMoreListings s fetch = s) ∧
    (s.hasMoreListings = true → s.loading = false →
      (loadMoreListings s (.ok data)).listings = s.listings ++ data ∧
      (loadMoreListings s (.ok data)).page = s.page + 1 ∧
      (loadMoreListings s (.ok data)).requests = s.requests ++
        [ApiCall.getListings (buildParams s.filters emptyOverride (s.page + 1))]) ∧
    (loadMoreListings s fetch).filters = s.filters := by
  refine ⟨fun h => ?_, fun h => ?_, fun h1 h2 => ?_, ?_⟩
  · simp [loadMoreListings, h]
  · simp [loadMoreListings, h]
  · simp [loadMoreListings, h1, h2, loadListings]
  · by_cases h : s.hasMoreListings && !s.loading
    · simp only [loadMoreListings, h, if_pos]
      cases fetch <;> rfl
    · simp [loadMoreListings, h]

/-- C9 (witness): from the idle page-2 state with more pages advertised,
load-more appends the fetched listing, moves to page 3 and keeps the
filters. -/
theorem loadMoreListings_guard_and_frame_witness :
    s9c.hasMoreListings = true ∧ s9c.loading = false ∧
    (loadMoreListings s9c (.ok [sampleListing])).listings =
      s9c.listings ++ [sampleListing] ∧
    (loadMoreListings s9c (.ok [sampleListing])).page = s9c.page + 1 ∧
    (loadMoreListings s9c (.ok [sampleListing])).filters = s9c.filters := by
  refine ⟨rfl, rfl, ?_, ?_, ?_⟩
  · exact ((loadMoreListings_guard_and_frame s9c (.ok [sampleListing])
      [sampleListing]).2.2.1 rfl rfl).1
  · exact ((loadMoreListings_guard_and_frame s9c (.ok [sampleListing])
      [sampleListing]).2.2.1 rfl rfl).2.1
  · exact (loadMoreListings_guard_and_frame s9c (.ok [sampleListing])
      [sampleListing]).2.2.2

/-- C10: a failed listings fetch leaves the pagination state untouched —
`page` and `hasMoreListings` keep their previous values — even though the
result buffer is cleared. -/
theorem loadListings_failure_preserves_pagination (s : AppState)
    (o : FilterOverride) (pn : Nat) (ap : Bool) :
    (loadListings s o pn ap (.error ())).page = s.page ∧
    (loadListings s o pn ap (.error ())).hasMoreListings = s.hasMoreListings ∧
    (loadListings s o pn ap (.error ())).listings = [] :=
  ⟨rfl, rfl, rfl⟩
